import Mathlib

/-!
# Verification of the sidebar search component

Shallow embedding of `src/code/ui/manager/src/components/sidebar/Search.tsx`:
the result filter/dedup/pagination (`getResults`), the last-viewed history
resolution performed in the `Search` render function, the Downshift
`stateReducer` overrides, and the `selectStory` callback.

JavaScript conventions used by the embedding:
* object-key lookups that may miss (`data.index[storyId]`) return `Option`;
* reading a field of a possibly-`undefined` value is modelled in `Except`,
  with `JsError.undefinedField` standing for the thrown `TypeError`;
* string truthiness (`if (!input)`) is emptiness; `Set.has(undefined)` is
  `false` because only string ids are ever added to the set.
-/

namespace Storybook

/-- A node of the story tree as stored in a reference's `index`
(id, name, path, type ∈ {component, docs, story, group, root}, parent id). -/
structure Item where
  id : String
  name : String
  path : String
  type : String
  parent : Option String
deriving DecidableEq

/-- A flattened, search-ready projection of an indexed item. -/
structure SearchItem where
  id : String
  name : String
  path : String
  type : String
  parent : Option String
  refId : String
  status : Option String
deriving DecidableEq

/-- One fuzzy-match span, keyed by the matched field. -/
structure MatchSpan where
  key : String
deriving DecidableEq

/-- A fuzzy-search match: a search item with its score and match spans. -/
structure SearchResult where
  item : SearchItem
  matches' : List MatchSpan
  score : Nat
deriving DecidableEq

/-- An entry handed to Downshift: either a real search result or the
"show N more" expand marker (`{ showAll, totalCount, moreCount }`; the
`showAll` closure is represented by the reducer's `showAllSet` effect). -/
inductive DownshiftItem where
  | result (res : SearchResult)
  | expand (totalCount : Nat) (moreCount : Nat)
deriving DecidableEq

/-- A "last viewed" record: `{ storyId, refId }`. -/
structure Selection where
  storyId : String
  refId : String
deriving DecidableEq

/-- One reference dataset; `index` itself may be absent
(the code checks `data.index` before using it). -/
structure RefData where
  index : Option (List (String × Item))
deriving DecidableEq

/-- The combined dataset: `hash` maps a refId to its reference dataset.
(The `entries` sequence is only consumed by the flat-list builder, which no
claim below touches, so it is omitted.) -/
structure CombinedDataset where
  hash : List (String × RefData)
deriving DecidableEq

/-- Modelled from the spec: `searchItem` (from `utils/tree`, whose source is
not under `src/`) projects an indexed item into a search item carrying the
item's name, path, type, parent and the reference id. -/
def searchItem (item : Item) (refId : String) : SearchItem :=
  { id := item.id, name := item.name, path := item.path, type := item.type,
    parent := item.parent, refId := refId, status := none }

/-- The white-space characters removed by `String.prototype.trim`
(space, tab, line feed, carriage return, form feed, vertical tab,
no-break space). -/
def isJsWhitespace (c : Char) : Bool :=
  c = ' ' ∨ c = '\t' ∨ c = '\n' ∨ c = '\r' ∨
    c = Char.ofNat 12 ∨ c = Char.ofNat 11 ∨ c = Char.ofNat 160

/-- Drop leading white-space characters. -/
def dropLeadingWs : List Char → List Char
  | [] => []
  | c :: cs => if isJsWhitespace c then dropLeadingWs cs else c :: cs

/-- `String.prototype.trim`: remove white space from both ends. -/
def jsTrim (s : String) : String :=
  ⟨(dropLeadingWs (dropLeadingWs s.data).reverse).reverse⟩

/-- `resultIds.has(item.parent)`: a `Set` of string ids never contains
`undefined`, so an absent parent is never "seen". -/
def jsSetHas (seen : List String) : Option String → Bool
  | none => false
  | some p => seen.contains p

def DEFAULT_MAX_SEARCH_RESULTS : Nat := 50

/-- The predicate of the `filter` callback in `getResults`: keep a match iff
its item type is component/docs/story and its item's `parent` id is not in
the seen set. -/
def distinctKeep (seen : List String) (m : SearchResult) : Bool :=
  (m.item.type = "component" ∨ m.item.type = "docs" ∨ m.item.type = "story") ∧
    jsSetHas seen m.item.parent = false

/-- `fuse.search(input).filter(...)` with the mutating `resultIds` set:
a left fold carrying the seen-id set and the kept matches; an accepted
match adds its own `id` to the set. -/
def distinctResults (ms : List SearchResult) : List SearchResult :=
  (ms.foldl
    (fun st m =>
      if distinctKeep st.1 m then (m.item.id :: st.1, st.2 ++ [m]) else st)
    ([], [])).2

/-- `getResults`: empty input short-circuits; otherwise filter/dedup the
ranked matches, truncate to 50 (or 1000 under "show all"), and append the
expand marker when more distinct results exist than the default cap and
"show all" is off. `search` stands for `fuse.search`. -/
def getResults (allComponents : Bool) (search : String → List SearchResult)
    (input : String) : List DownshiftItem :=
  if input = "" then []
  else
    let distinct := distinctResults (search input)
    if distinct.length ≠ 0 then
      let results :=
        (distinct.take (if allComponents then 1000 else DEFAULT_MAX_SEARCH_RESULTS)).map
          DownshiftItem.result
      if distinct.length > DEFAULT_MAX_SEARCH_RESULTS ∧ allComponents = false then
        results ++ [DownshiftItem.expand distinct.length
          (distinct.length - DEFAULT_MAX_SEARCH_RESULTS)]
      else results
    else []

/-- The spec's wording of the filter/dedup walk (§4.3 steps 1–2): walk the
matches in ranked order; keep a match iff its type is component/docs/story
and its item's `parent` id is not yet seen; on accepting, remember the
item's own `id` as seen. -/
def distinctResultsSpecGo : List SearchResult → List String → List SearchResult
  | [], _ => []
  | m :: ms, seen =>
    if distinctKeep seen m then m :: distinctResultsSpecGo ms (m.item.id :: seen)
    else distinctResultsSpecGo ms seen

/-- The spec's filter/dedup walk, started with an empty seen set. -/
def distinctResultsSpec (ms : List SearchResult) : List SearchResult :=
  distinctResultsSpecGo ms []

/-- Is this Downshift entry a real search result (not the expand marker)? -/
def isResultB : DownshiftItem → Bool
  | .result _ => true
  | .expand _ _ => false

/-- The `(totalCount, moreCount)` payloads of the expand markers in a
result sequence. -/
def expandPayloads (l : List DownshiftItem) : List (Nat × Nat) :=
  l.filterMap fun x =>
    match x with
    | .expand t m => some (t, m)
    | _ => none

/-- A thrown JavaScript `TypeError`: reading `field` of `undefined`, tagged
with where in the code the read happens. -/
inductive JsError where
  | undefinedField (field : String) (context : String)
deriving DecidableEq

/-- The `acc.some(res => res.item.refId === refId && res.item.id === item.id)`
test of the last-viewed reduce. `&&` short-circuits, so `item.id` is read —
and throws when `item` is `undefined` — only for an `acc` entry whose
`refId` matches. -/
def dedupHit (acc : List SearchResult) (refId : String) (itemOpt : Option Item) :
    Except JsError Bool :=
  match acc with
  | [] => .ok false
  | res :: rest =>
    if res.item.refId = refId then
      match itemOpt with
      | none => .error (.undefinedField "id" "dedup")
      | some item =>
        if res.item.id = item.id then .ok true else dedupHit rest refId itemOpt
    else dedupHit rest refId itemOpt

/-- One iteration of the last-viewed `reduce` (`Search` render, lines
311–322): look up the reference and the story, resolve a story-typed entry
to `data.index[story.parent]` (no presence check), test for a duplicate,
and append a zero-score, zero-match result. Reading a field of a missing
parent item — in the duplicate test or in `searchItem` — is an error. -/
def lvStep (d : CombinedDataset) (acc : List SearchResult) (sel : Selection) :
    Except JsError (List SearchResult) :=
  match d.hash.lookup sel.refId with
  | none => .ok acc
  | some data =>
    match data.index with
    | none => .ok acc
    | some idx =>
      match idx.lookup sel.storyId with
      | none => .ok acc
      | some story =>
        let itemOpt := if story.type = "story" then story.parent.bind idx.lookup else some story
        match dedupHit acc sel.refId itemOpt with
        | .error e => .error e
        | .ok true => .ok acc
        | .ok false =>
          match itemOpt with
          | some item =>
            .ok (acc ++ [{ item := searchItem item sel.refId, matches' := [], score := 0 }])
          | none => .error (.undefinedField "name" "searchItem")

/-- The last-viewed `reduce` as a recursion over the selection records. -/
def resolveGo (d : CombinedDataset) :
    List SearchResult → List Selection → Except JsError (List SearchResult)
  | acc, [] => .ok acc
  | acc, sel :: rest =>
    match lvStep d acc sel with
    | .error e => .error e
    | .ok acc' => resolveGo d acc' rest

/-- The last-viewed history resolution: `lastViewed.reduce(..., [])`. -/
def resolveLastViewed (d : CombinedDataset) (lv : List Selection) :
    Except JsError (List SearchResult) :=
  resolveGo d [] lv

/-- The implicit well-formedness precondition of the last-viewed
resolution: every record that resolves to a story-typed item finds that
item's `parent` id present in the reference's index. -/
def parentsPresent (d : CombinedDataset) (lv : List Selection) : Bool :=
  lv.all fun sel =>
    match d.hash.lookup sel.refId with
    | none => true
    | some data =>
      match data.index with
      | none => true
      | some idx =>
        match idx.lookup sel.storyId with
        | none => true
        | some story =>
          if story.type = "story" then (story.parent.bind idx.lookup).isSome else true

/-- The spec's resolution of one selection record (§4.4): resolve
`(refId, storyId)` against the dataset; a story-typed item resolves to its
parent, anything else to itself; unresolvable records resolve to nothing. -/
def resolveSel (d : CombinedDataset) (sel : Selection) : Option Item :=
  match d.hash.lookup sel.refId with
  | none => none
  | some data =>
    match data.index with
    | none => none
    | some idx =>
      match idx.lookup sel.storyId with
      | none => none
      | some story =>
        if story.type = "story" then story.parent.bind idx.lookup else some story

/-- Membership in the seen `(refId, resolved id)` pairs. -/
def seenHas : List (String × String) → (String × String) → Bool
  | [], _ => false
  | q :: rest, p => if q = p then true else seenHas rest p

/-- The spec's wording of the last-viewed fallback (§4.4): resolve each
record in order, skip unresolvable ones, deduplicate by the
`(refId, resolved item id)` pair preserving the history's order, and wrap
each survivor as a zero-score, zero-match search result. -/
def resolveLastViewedSpecGo (d : CombinedDataset) :
    List Selection → List (String × String) → List SearchResult
  | [], _ => []
  | sel :: rest, seen =>
    match resolveSel d sel with
    | none => resolveLastViewedSpecGo d rest seen
    | some item =>
      if seenHas seen (sel.refId, item.id) then resolveLastViewedSpecGo d rest seen
      else
        { item := searchItem item sel.refId, matches' := [], score := 0 } ::
          resolveLastViewedSpecGo d rest (seen ++ [(sel.refId, item.id)])

/-- The spec's last-viewed fallback, started with no seen pairs. -/
def resolveLastViewedSpec (d : CombinedDataset) (lv : List Selection) : List SearchResult :=
  resolveLastViewedSpecGo d lv []

/-- The result computation of the `Search` render function (lines 306–323):
trim the input; a non-empty trimmed query goes to `getResults`; an empty
one falls back to the last-viewed history when it is non-empty, and to no
results otherwise. -/
def renderResults (allComponents : Bool) (search : String → List SearchResult)
    (d : CombinedDataset) (lastViewedList : List Selection) (inputValue : String) :
    Except JsError (List DownshiftItem) :=
  let input := if inputValue = "" then "" else jsTrim inputValue
  if input = "" ∧ lastViewedList ≠ [] then
    (resolveLastViewed d lastViewedList).map (·.map DownshiftItem.result)
  else if input ≠ "" then .ok (getResults allComponents search input)
  else .ok []

/-- The Downshift state change types handled by `stateReducer`; `other`
stands for every type the switch's `default` branch covers. -/
inductive ChangeType where
  | blurInput
  | mouseUp
  | keyDownEscape
  | clickItem
  | keyDownEnter
  | changeInput
  | other
deriving DecidableEq

/-- Downshift's container state (the fields the reducer reads or writes). -/
structure RState where
  inputValue : String
  isOpen : Bool
  selectedItem : Option DownshiftItem
deriving DecidableEq

/-- A partial state-change object: `none` means the field is absent.
For `selectedItem`, `some none` is an explicit `null`. -/
structure ChangesOut where
  inputValue : Option String := none
  isOpen : Option Bool := none
  selectedItem : Option (Option DownshiftItem) := none
deriving DecidableEq

/-- A proposed state change handed to the reducer: its type plus the
changed fields (the `{...changes}` spreads copy `fields`). -/
structure RChanges where
  type : ChangeType
  fields : ChangesOut
deriving DecidableEq

/-- The side effects a reducer run performs: the `(id, refId)` pair passed
to the navigation call (`api.selectStory`), whether `inputRef.current.blur()`
ran, and the value passed to `showAllComponents`. -/
structure Effects where
  navCall : Option (String × String) := none
  blurred : Bool := false
  showAllSet : Option Bool := none
deriving DecidableEq

/-- `api.selectStory(...)`: calling a method on an absent `api` would
throw; with `api` present it receives the item's id and refId. -/
def apiSelectStory (api : Bool) (id refId : String) : Except JsError (String × String) :=
  if api then .ok (id, refId) else .error (.undefinedField "selectStory" "api")

/-- `selectStory` (lines 160–169): the navigation call is guarded by
`if (api)`; then the input is blurred and the "show all" flag reset. -/
def selectStory (api : Bool) (id refId : String) : Except JsError Effects :=
  if api then
    match apiSelectStory api id refId with
    | .ok nav => .ok { navCall := some nav, blurred := true, showAllSet := some false }
    | .error e => .error e
  else .ok { navCall := none, blurred := true, showAllSet := some false }

/-- How Downshift applies a partial change object to its state
(absent fields keep their current value). -/
def applyChanges (s : RState) (c : ChangesOut) : RState :=
  { inputValue := c.inputValue.getD s.inputValue,
    isOpen := c.isOpen.getD s.isOpen,
    selectedItem := c.selectedItem.getD s.selectedItem }

/-- `stateReducer` (lines 227–283), with side effects made explicit. -/
def stateReducer (api : Bool) (state : RState) (changes : RChanges) :
    Except JsError (ChangesOut × Effects) :=
  match changes.type with
  | .blurInput =>
    .ok ({ changes.fields with
            inputValue := some state.inputValue,
            isOpen := some (!state.inputValue.isEmpty && state.selectedItem.isNone),
            selectedItem := some none }, {})
  | .mouseUp => .ok ({}, {})
  | .keyDownEscape =>
    if state.inputValue ≠ "" then
      .ok ({ changes.fields with
              inputValue := some "", isOpen := some true, selectedItem := some none }, {})
    else
      .ok ({ changes.fields with isOpen := some false, selectedItem := some none },
        { blurred := true })
  | .clickItem | .keyDownEnter =>
    match changes.fields.selectedItem with
    | some (some (DownshiftItem.result r)) =>
      match selectStory api r.item.id r.item.refId with
      | .ok eff =>
        .ok ({ changes.fields with inputValue := some state.inputValue, isOpen := some false },
          eff)
      | .error e => .error e
    | some (some (DownshiftItem.expand _ _)) => .ok ({}, { showAllSet := some true })
    | _ => .ok (changes.fields, {})
  | .changeInput => .ok (changes.fields, { showAllSet := some false })
  | .other => .ok (changes.fields, {})

lemma distinct_foldl_eq (ms : List SearchResult) :
    ∀ seen acc,
      (ms.foldl
        (fun st m => if distinctKeep st.1 m then (m.item.id :: st.1, st.2 ++ [m]) else st)
        (seen, acc)).2 = acc ++ distinctResultsSpecGo ms seen := by
  induction ms with
  | nil => intro seen acc; simp [distinctResultsSpecGo]
  | cons m ms ih =>
    intro seen acc
    simp only [List.foldl_cons, distinctResultsSpecGo]
    by_cases h : distinctKeep seen m
    · simp [h, ih]
    · simp [h, ih]

lemma distinctResults_eq_specGo (ms : List SearchResult) :
    distinctResults ms = distinctResultsSpecGo ms [] := by
  simpa [distinctResults] using distinct_foldl_eq ms [] []

lemma specGo_keeps_types (ms : List SearchResult) :
    ∀ seen, ∀ r ∈ distinctResultsSpecGo ms seen,
      r.item.type = "component" ∨ r.item.type = "docs" ∨ r.item.type = "story" := by
  induction ms with
  | nil => intro seen r hr; simp [distinctResultsSpecGo] at hr
  | cons m ms ih =>
    intro seen r hr
    simp only [distinctResultsSpecGo] at hr
    by_cases h : distinctKeep seen m
    · rw [if_pos h] at hr
      rcases List.mem_cons.mp hr with rfl | hr'
      · have := h
        simp only [distinctKeep, decide_eq_true_eq] at this
        exact this.1
      · exact ih _ r hr'
    · rw [if_neg h] at hr
      exact ih _ r hr

lemma specGo_parent_ne (ms : List SearchResult) :
    ∀ seen x, x ∈ seen → ∀ b ∈ distinctResultsSpecGo ms seen, b.item.parent ≠ some x := by
  induction ms with
  | nil => intro seen x _ b hb; simp [distinctResultsSpecGo] at hb
  | cons m ms ih =>
    intro seen x hx b hb
    simp only [distinctResultsSpecGo] at hb
    by_cases h : distinctKeep seen m
    · rw [if_pos h] at hb
      rcases List.mem_cons.mp hb with rfl | hb'
      · intro hpar
        have hkeep := h
        simp only [distinctKeep, decide_eq_true_eq] at hkeep
        have hhas := hkeep.2
        rw [hpar] at hhas
        simp only [jsSetHas] at hhas
        have hmem : seen.contains x = true := by simpa using hx
        rw [hmem] at hhas
        exact Bool.noConfusion hhas
      · exact ih (m.item.id :: seen) x (List.mem_cons_of_mem _ hx) b hb'
    · rw [if_neg h] at hb
      exact ih seen x hx b hb

lemma specGo_pairwise (ms : List SearchResult) :
    ∀ seen, (distinctResultsSpecGo ms seen).Pairwise
      (fun a b => b.item.parent ≠ some a.item.id) := by
  induction ms with
  | nil => intro seen; simp [distinctResultsSpecGo]
  | cons m ms ih =>
    intro seen
    simp only [distinctResultsSpecGo]
    by_cases h : distinctKeep seen m
    · rw [if_pos h]
      refine List.pairwise_cons.mpr ⟨?_, ih _⟩
      intro b hb
      exact specGo_parent_ne ms (m.item.id :: seen) m.item.id (List.mem_cons_self _ _) b hb
    · rw [if_neg h]; exact ih seen

lemma distinctResults_pairwise (ms : List SearchResult) :
    (distinctResults ms).Pairwise (fun a b => b.item.parent ≠ some a.item.id) := by
  rw [distinctResults_eq_specGo]; exact specGo_pairwise ms []

lemma countP_map_result (l : List SearchResult) :
    ((l.map DownshiftItem.result).countP isResultB) = l.length := by
  induction l with
  | nil => rfl
  | cons a l ih => simp [List.countP_cons, isResultB, ih]

lemma expandPayloads_map_result (l : List SearchResult) :
    expandPayloads (l.map DownshiftItem.result) = [] := by
  induction l with
  | nil => rfl
  | cons a l ih => simp [expandPayloads, List.filterMap_cons]

/-- C1 (counterexample): two story matches sharing parent `c1` — ranked so
that the parent component itself never appears — are both kept by
`getResults`, so the result sequence holds two entries with the same
`parent` id. -/
theorem getResults_parent_dedup_cex :
    (getResults false
        (fun _ => [⟨⟨"s1", "A", "p", "story", some "c1", "r", none⟩, [], 1⟩,
                   ⟨⟨"s2", "B", "p", "story", some "c1", "r", none⟩, [], 2⟩]) "q" =
      [DownshiftItem.result ⟨⟨"s1", "A", "p", "story", some "c1", "r", none⟩, [], 1⟩,
       DownshiftItem.result ⟨⟨"s2", "B", "p", "story", some "c1", "r", none⟩, [], 2⟩]) ∧
    (⟨⟨"s1", "A", "p", "story", some "c1", "r", none⟩, [], 1⟩ : SearchResult).item.parent =
      some "c1" ∧
    (⟨⟨"s2", "B", "p", "story", some "c1", "r", none⟩, [], 2⟩ : SearchResult).item.parent =
      some "c1" := by decide

/-- C1 (amended): for every ranked match list, the result sequence returned
by `getResults` never contains an entry whose item's `parent` id equals the
`id` of an earlier entry's item (the seen set stores accepted items' own
ids, so entries may share a `parent` whose own id was never accepted). -/
theorem getResults_parent_dedup_amended (allComponents : Bool)
    (search : String → List SearchResult) (input : String) :
    (getResults allComponents search input).Pairwise
      (fun x y => ∀ a b : SearchResult,
        x = DownshiftItem.result a → y = DownshiftItem.result b →
          b.item.parent ≠ some a.item.id) := by
  have hpw : (distinctResults (search input)).Pairwise
      (fun a b => b.item.parent ≠ some a.item.id) := distinctResults_pairwise _
  have hmapped : ∀ n : Nat,
      (((distinctResults (search input)).take n).map DownshiftItem.result).Pairwise
        (fun x y => ∀ a b : SearchResult,
          x = DownshiftItem.result a → y = DownshiftItem.result b →
            b.item.parent ≠ some a.item.id) := by
    intro n
    refine List.Pairwise.map _ ?_
      (List.Pairwise.sublist (List.take_sublist n _) hpw)
    intro a b hab a' b' ha' hb'
    cases ha'; cases hb'
    exact hab
  by_cases hin : input = ""
  · simp [getResults, hin]
  · simp only [getResults, if_neg hin]
    split
    · split
      · refine (List.pairwise_append).mpr ⟨hmapped _, List.pairwise_singleton _ _, ?_⟩
        intro x hx y hy a b hxa hyb
        simp only [List.mem_singleton] at hy
        subst hy
        exact absurd hyb (by simp)
      · exact hmapped _
    · exact List.Pairwise.nil

/-- C2: for a non-empty distinct-match list, `getResults` returns at most
50 real results when "show all" is off and at most 1000 when it is on, and
appends exactly one expand marker — with `totalCount` the distinct count
and `moreCount` the distinct count minus 50 — iff the distinct count
exceeds 50 and "show all" is off. -/
theorem getResults_cap_and_expand_marker (allComponents : Bool)
    (search : String → List SearchResult) (input : String)
    (hin : input ≠ "") (hne : distinctResults (search input) ≠ []) :
    (getResults allComponents search input).countP isResultB ≤
      (if allComponents then 1000 else DEFAULT_MAX_SEARCH_RESULTS) ∧
    expandPayloads (getResults allComponents search input) =
      (if allComponents = false ∧
          DEFAULT_MAX_SEARCH_RESULTS < (distinctResults (search input)).length then
        [((distinctResults (search input)).length,
          (distinctResults (search input)).length - DEFAULT_MAX_SEARCH_RESULTS)]
      else []) := by
  unfold getResults
  rw [if_neg hin]
  set distinct := distinctResults (search input) with hd
  have hlen : distinct.length ≠ 0 := by
    simpa [List.length_eq_zero] using hne
  rw [if_pos hlen]
  cases allComponents with
  | true =>
    have hcond : ¬(distinct.length > DEFAULT_MAX_SEARCH_RESULTS ∧ true = false) := by
      rintro ⟨-, h⟩; exact absurd h (by simp)
    rw [if_neg hcond]
    refine ⟨?_, ?_⟩
    · rw [countP_map_result]
      simp [List.length_take_le]
    · rw [expandPayloads_map_result]
      simp
  | false =>
    by_cases h50 : distinct.length > DEFAULT_MAX_SEARCH_RESULTS
    · rw [if_pos ⟨h50, rfl⟩]
      refine ⟨?_, ?_⟩
      · rw [List.countP_append, countP_map_result]
        have : (List.countP isResultB
            [DownshiftItem.expand distinct.length
              (distinct.length - DEFAULT_MAX_SEARCH_RESULTS)]) = 0 := by
          simp [List.countP_cons, isResultB]
        rw [this, Nat.add_zero]
        simp [List.length_take_le]
      · rw [expandPayloads, List.filterMap_append]
        have h1 : expandPayloads
            ((distinct.take (if false then 1000 else DEFAULT_MAX_SEARCH_RESULTS)).map
              DownshiftItem.result) = [] := expandPayloads_map_result _
        rw [expandPayloads] at h1
        rw [h1]
        simp [h50]
    · rw [if_neg (by rintro ⟨h, -⟩; exact h50 h)]
      refine ⟨?_, ?_⟩
      · rw [countP_map_result]
        simp [List.length_take_le]
      · rw [expandPayloads_map_result]
        simp [h50]

/-- C2 (witness): one component match, "show all" off — one result, no
expand marker. -/
theorem getResults_cap_and_expand_marker_witness :
    ((getResults false
        (fun _ => [⟨⟨"c1", "Button", "p", "component", none, "r", none⟩, [], 1⟩]) "b").countP
          isResultB ≤ (if false then 1000 else DEFAULT_MAX_SEARCH_RESULTS)) ∧
    expandPayloads (getResults false
        (fun _ => [⟨⟨"c1", "Button", "p", "component", none, "r", none⟩, [], 1⟩]) "b") =
      (if (false = false ∧ DEFAULT_MAX_SEARCH_RESULTS <
          (distinctResults ((fun (_ : String) =>
            [(⟨⟨"c1", "Button", "p", "component", none, "r", none⟩, [], 1⟩ :
              SearchResult)]) "b")).length) then
        [((distinctResults ((fun (_ : String) =>
            [(⟨⟨"c1", "Button", "p", "component", none, "r", none⟩, [], 1⟩ :
              SearchResult)]) "b")).length,
          (distinctResults ((fun (_ : String) =>
            [(⟨⟨"c1", "Button", "p", "component", none, "r", none⟩, [], 1⟩ :
              SearchResult)]) "b")).length - DEFAULT_MAX_SEARCH_RESULTS)]
      else []) :=
  getResults_cap_and_expand_marker false
    (fun _ => [⟨⟨"c1", "Button", "p", "component", none, "r", none⟩, [], 1⟩]) "b"
    (by decide) (by decide)

/-- C3: the filter/dedup of `getResults` equals the spec's walk — keep only
component/docs/story matches, walk in ranked order, skip a match whose
item's `parent` id is already seen, and remember an accepted item's own
`id` (not its parent id) as seen — and every kept match has one of the
three item types. -/
theorem distinctResults_eq_spec_walk (ms : List SearchResult) :
    distinctResults ms = distinctResultsSpec ms ∧
    ∀ r ∈ distinctResults ms,
      r.item.type = "component" ∨ r.item.type = "docs" ∨ r.item.type = "story" := by
  refine ⟨distinctResults_eq_specGo ms, ?_⟩
  intro r hr
  rw [distinctResults_eq_specGo] at hr
  exact specGo_keeps_types ms [] r hr

/-- The dedup key of an accumulated last-viewed entry. -/
def pairOf (r : SearchResult) : String × String := (r.item.refId, r.item.id)

lemma dedupHit_some_eq (refId : String) (item : Item) :
    ∀ acc : List SearchResult,
      dedupHit acc refId (some item) = .ok (seenHas (acc.map pairOf) (refId, item.id)) := by
  intro acc
  induction acc with
  | nil => simp [dedupHit, seenHas]
  | cons res rest ih =>
    by_cases h1 : res.item.refId = refId
    · by_cases h2 : res.item.id = item.id
      · simp [dedupHit, seenHas, pairOf, h1, h2, Prod.ext_iff]
      · simp [dedupHit, seenHas, pairOf, h1, h2, Prod.ext_iff, ih]
    · simp [dedupHit, seenHas, pairOf, h1, Prod.ext_iff, ih]

lemma parentsPresent_cons (d : CombinedDataset) (sel : Selection) (rest : List Selection)
    (h : parentsPresent d (sel :: rest) = true) : parentsPresent d rest = true := by
  simp only [parentsPresent, List.all_cons, Bool.and_eq_true] at h
  exact h.2

lemma resolveGo_eq_spec (d : CombinedDataset) :
    ∀ (lv : List Selection) (acc : List SearchResult) (seen : List (String × String)),
      acc.map pairOf = seen →
      parentsPresent d lv = true →
      resolveGo d acc lv = .ok (acc ++ resolveLastViewedSpecGo d lv seen) := by
  intro lv
  induction lv with
  | nil => intro acc seen _ _; simp [resolveGo, resolveLastViewedSpecGo]
  | cons sel rest ih =>
    intro acc seen hseen hpre
    have hpre' : parentsPresent d rest = true := parentsPresent_cons d sel rest hpre
    cases hh : d.hash.lookup sel.refId with
    | none =>
      simp only [resolveGo, lvStep, hh, resolveLastViewedSpecGo, resolveSel]
      exact ih acc seen hseen hpre'
    | some data =>
      cases hidx : data.index with
      | none =>
        simp only [resolveGo, lvStep, hh, hidx, resolveLastViewedSpecGo, resolveSel]
        exact ih acc seen hseen hpre'
      | some idx =>
        cases hst : idx.lookup sel.storyId with
        | none =>
          simp only [resolveGo, lvStep, hh, hidx, hst, resolveLastViewedSpecGo, resolveSel]
          exact ih acc seen hseen hpre'
        | some story =>
          have hitem : ∃ item : Item,
              (if story.type = "story" then story.parent.bind idx.lookup
               else some story) = some item := by
            by_cases hty : story.type = "story"
            · rw [if_pos hty]
              have hall := hpre
              simp only [parentsPresent, List.all_cons, Bool.and_eq_true] at hall
              have hs := hall.1
              simp only [hh, hidx, hst] at hs
              rw [if_pos hty] at hs
              exact Option.isSome_iff_exists.mp hs
            · exact ⟨story, by rw [if_neg hty]⟩
          obtain ⟨item, hitem⟩ := hitem
          have hrs : resolveSel d sel = some item := by
            simp only [resolveSel, hh, hidx, hst]
            exact hitem
          have hdh := dedupHit_some_eq sel.refId item acc
          rw [hseen] at hdh
          cases hdup : seenHas seen (sel.refId, item.id) with
          | true =>
            have hmain := ih acc seen hseen hpre'
            simp [resolveGo, lvStep, hh, hidx, hst, hitem, hdh, hdup,
              resolveLastViewedSpecGo, hrs, hmain]
          | false =>
            have happ := ih
              (acc ++ [{ item := searchItem item sel.refId, matches' := [], score := 0 }])
              (seen ++ [(sel.refId, item.id)])
              (by simp [hseen, pairOf, searchItem]) hpre'
            simp [resolveGo, lvStep, hh, hidx, hst, hitem, hdh, hdup,
              resolveLastViewedSpecGo, hrs, happ]

lemma resolveLastViewed_eq_spec (d : CombinedDataset) (lv : List Selection)
    (h : parentsPresent d lv = true) :
    resolveLastViewed d lv = .ok (resolveLastViewedSpec d lv) :=
  resolveGo_eq_spec d lv [] [] rfl h

lemma specGo_zero_score (d : CombinedDataset) :
    ∀ (lv : List Selection) (seen : List (String × String)),
      (resolveLastViewedSpecGo d lv seen).all
        (fun r => r.matches'.isEmpty && r.score == 0) = true := by
  intro lv
  induction lv with
  | nil => intro seen; simp [resolveLastViewedSpecGo]
  | cons sel rest ih =>
    intro seen
    simp only [resolveLastViewedSpecGo]
    cases resolveSel d sel with
    | none => exact ih seen
    | some item =>
      by_cases hd : seenHas seen (sel.refId, item.id) = true
      · simp [hd, ih]
      · simp [hd, ih]

/-- C7: under the implicit precondition that story-typed history entries
have their parent present in the index (see C10), the last-viewed reduce
equals the spec's resolution: resolve each `(refId, storyId)` record in
order, replace a story-typed item by its parent and keep any other item,
skip unresolvable records, deduplicate by the `(refId, resolved id)` pair
preserving order, and wrap survivors with score 0 and no matches. -/
theorem lastViewed_resolution_refines_spec (d : CombinedDataset) (lv : List Selection)
    (h : parentsPresent d lv = true) :
    resolveLastViewed d lv = .ok (resolveLastViewedSpec d lv) ∧
    (resolveLastViewedSpec d lv).all (fun r => r.matches'.isEmpty && r.score == 0) = true :=
  ⟨resolveLastViewed_eq_spec d lv h, specGo_zero_score d lv []⟩

/-- C7 (witness): the spec's own example — story `s1` under component `c1`;
the record `{storyId: 's1', refId: 'r1'}` resolves to a result wrapping
`c1`. -/
theorem lastViewed_resolution_refines_spec_witness :
    parentsPresent
        ⟨[("r1", ⟨some [("s1", ⟨"s1", "S1", "C1/S1", "story", some "c1"⟩),
                        ("c1", ⟨"c1", "C1", "C1", "component", none⟩)]⟩)]⟩
        [⟨"s1", "r1"⟩] = true ∧
    (resolveLastViewed
        ⟨[("r1", ⟨some [("s1", ⟨"s1", "S1", "C1/S1", "story", some "c1"⟩),
                        ("c1", ⟨"c1", "C1", "C1", "component", none⟩)]⟩)]⟩
        [⟨"s1", "r1"⟩] =
      .ok (resolveLastViewedSpec
        ⟨[("r1", ⟨some [("s1", ⟨"s1", "S1", "C1/S1", "story", some "c1"⟩),
                        ("c1", ⟨"c1", "C1", "C1", "component", none⟩)]⟩)]⟩
        [⟨"s1", "r1"⟩]) ∧
    (resolveLastViewedSpec
        ⟨[("r1", ⟨some [("s1", ⟨"s1", "S1", "C1/S1", "story", some "c1"⟩),
                        ("c1", ⟨"c1", "C1", "C1", "component", none⟩)]⟩)]⟩
        [⟨"s1", "r1"⟩]).all (fun r => r.matches'.isEmpty && r.score == 0) = true) ∧
    resolveLastViewedSpec
        ⟨[("r1", ⟨some [("s1", ⟨"s1", "S1", "C1/S1", "story", some "c1"⟩),
                        ("c1", ⟨"c1", "C1", "C1", "component", none⟩)]⟩)]⟩
        [⟨"s1", "r1"⟩] =
      [{ item := searchItem ⟨"c1", "C1", "C1", "component", none⟩ "r1",
         matches' := [], score := 0 }] :=
  ⟨by decide,
   lastViewed_resolution_refines_spec
     ⟨[("r1", ⟨some [("s1", ⟨"s1", "S1", "C1/S1", "story", some "c1"⟩),
                     ("c1", ⟨"c1", "C1", "C1", "component", none⟩)]⟩)]⟩
     [⟨"s1", "r1"⟩] (by decide),
   by decide⟩

/-- C10: the last-viewed resolution is total under the precondition that a
record resolving to a story-typed item finds that item's `parent` in the
index; without it, a story whose parent id is absent makes the dedup
comparison read `item.id` of a missing entry — shown on a concrete dataset
where story `s2` has the dangling parent `ghost`. -/
theorem lastViewed_parent_precondition (d : CombinedDataset) (lv : List Selection)
    (h : parentsPresent d lv = true) :
    (resolveLastViewed d lv).isOk = true ∧
    resolveLastViewed
        ⟨[("r1", ⟨some [("c1", ⟨"c1", "C1", "C1", "component", none⟩),
                        ("s2", ⟨"s2", "S2", "C1/S2", "story", some "ghost"⟩)]⟩)]⟩
        [⟨"c1", "r1"⟩, ⟨"s2", "r1"⟩] =
      .error (JsError.undefinedField "id" "dedup") := by
  refine ⟨?_, by rfl⟩
  rw [resolveLastViewed_eq_spec d lv h]
  rfl

/-- C10 (witness): a dataset whose single story has its parent present
satisfies the precondition. -/
theorem lastViewed_parent_precondition_witness :
    parentsPresent
        ⟨[("r1", ⟨some [("s1", ⟨"s1", "S1", "C1/S1", "story", some "c1"⟩),
                        ("c1", ⟨"c1", "C1", "C1", "component", none⟩)]⟩)]⟩
        [⟨"s1", "r1"⟩] = true ∧
    ((resolveLastViewed
        ⟨[("r1", ⟨some [("s1", ⟨"s1", "S1", "C1/S1", "story", some "c1"⟩),
                        ("c1", ⟨"c1", "C1", "C1", "component", none⟩)]⟩)]⟩
        [⟨"s1", "r1"⟩]).isOk = true ∧
    resolveLastViewed
        ⟨[("r1", ⟨some [("c1", ⟨"c1", "C1", "C1", "component", none⟩),
                        ("s2", ⟨"s2", "S2", "C1/S2", "story", some "ghost"⟩)]⟩)]⟩
        [⟨"c1", "r1"⟩, ⟨"s2", "r1"⟩] =
      .error (JsError.undefinedField "id" "dedup")) :=
  ⟨by decide,
   lastViewed_parent_precondition
     ⟨[("r1", ⟨some [("s1", ⟨"s1", "S1", "C1/S1", "story", some "c1"⟩),
                     ("c1", ⟨"c1", "C1", "C1", "component", none⟩)]⟩)]⟩
     [⟨"s1", "r1"⟩] (by decide)⟩

/-- C4: for empty or whitespace-only input, the render's result computation
is independent of the fuzzy-search function (the search is never invoked:
the input is trimmed and an empty query short-circuits `getResults` to
`[]`), and the displayed results come from the last-viewed history alone. -/
theorem emptyQuery_skips_search (allComponents : Bool)
    (s1 s2 : String → List SearchResult) (d : CombinedDataset)
    (lv : List Selection) (v : String) (h : jsTrim v = "") :
    renderResults allComponents s1 d lv v = renderResults allComponents s2 d lv v ∧
    renderResults allComponents s1 d lv v =
      (if lv = [] then .ok []
       else (resolveLastViewed d lv).map (·.map DownshiftItem.result)) ∧
    getResults allComponents s1 "" = [] := by
  have hr : ∀ s : String → List SearchResult,
      renderResults allComponents s d lv v =
        (if lv = [] then .ok []
         else (resolveLastViewed d lv).map (·.map DownshiftItem.result)) := by
    intro s
    have hin : (if v = "" then "" else jsTrim v) = "" := by
      by_cases hv : v = "" <;> simp [hv, h]
    simp only [renderResults, hin]
    by_cases hlv : lv = [] <;> simp [hlv]
  exact ⟨(hr s1).trans (hr s2).symm, hr s1, by simp [getResults]⟩

/-- C4 (witness): a single-space input with a one-record history. -/
theorem emptyQuery_skips_search_witness :
    jsTrim " " = "" ∧
    (renderResults false (fun _ => [⟨⟨"c1", "C1", "p", "component", none, "r1", none⟩, [], 1⟩])
        ⟨[("r1", ⟨some [("c1", ⟨"c1", "C1", "C1", "component", none⟩)]⟩)]⟩
        [⟨"c1", "r1"⟩] " " =
      renderResults false (fun _ => [])
        ⟨[("r1", ⟨some [("c1", ⟨"c1", "C1", "C1", "component", none⟩)]⟩)]⟩
        [⟨"c1", "r1"⟩] " " ∧
    renderResults false (fun _ => [⟨⟨"c1", "C1", "p", "component", none, "r1", none⟩, [], 1⟩])
        ⟨[("r1", ⟨some [("c1", ⟨"c1", "C1", "C1", "component", none⟩)]⟩)]⟩
        [⟨"c1", "r1"⟩] " " =
      (if ([⟨"c1", "r1"⟩] : List Selection) = [] then .ok []
       else (resolveLastViewed
          ⟨[("r1", ⟨some [("c1", ⟨"c1", "C1", "C1", "component", none⟩)]⟩)]⟩
          [⟨"c1", "r1"⟩]).map (·.map DownshiftItem.result)) ∧
    getResults false
      (fun _ => [⟨⟨"c1", "C1", "p", "component", none, "r1", none⟩, [], 1⟩]) "" = []) :=
  ⟨by decide,
   emptyQuery_skips_search false
     (fun _ => [⟨⟨"c1", "C1", "p", "component", none, "r1", none⟩, [], 1⟩]) (fun _ => [])
     ⟨[("r1", ⟨some [("c1", ⟨"c1", "C1", "C1", "component", none⟩)]⟩)]⟩
     [⟨"c1", "r1"⟩] " " (by decide)⟩

/-- C5: the Escape override is two-stage — with non-empty input text the
reducer returns empty input, a forced-open list and a cleared selection
(no blur); with empty input it returns a closed list, a cleared selection,
and blurs the input element. -/
theorem escape_two_stage (api : Bool) (state : RState) (changes : RChanges)
    (h : changes.type = ChangeType.keyDownEscape) :
    (state.inputValue ≠ "" →
      stateReducer api state changes =
        .ok ({ changes.fields with
                inputValue := some "", isOpen := some true, selectedItem := some none },
          {})) ∧
    (state.inputValue = "" →
      stateReducer api state changes =
        .ok ({ changes.fields with isOpen := some false, selectedItem := some none },
          { blurred := true })) := by
  constructor <;> intro hi <;> simp [stateReducer, h, hi]

/-- C5 (witness): Escape at input `"abc"`, then Escape at empty input. -/
theorem escape_two_stage_witness :
    stateReducer true ⟨"abc", true, none⟩ ⟨ChangeType.keyDownEscape, {}⟩ =
      .ok ({ inputValue := some "", isOpen := some true, selectedItem := some none }, {}) ∧
    stateReducer true ⟨"", true, none⟩ ⟨ChangeType.keyDownEscape, {}⟩ =
      .ok ({ isOpen := some false, selectedItem := some none }, { blurred := true }) :=
  ⟨(escape_two_stage true ⟨"abc", true, none⟩ ⟨ChangeType.keyDownEscape, {}⟩ rfl).1
      (by decide),
   (escape_two_stage true ⟨"", true, none⟩ ⟨ChangeType.keyDownEscape, {}⟩ rfl).2 rfl⟩

/-- C6: item click or Enter with a search-result item selected (host API
present) calls the navigation with exactly the item's `id` and `refId`,
blurs the input, resets "show all" to `false`, and the returned change
keeps the prior input text. -/
theorem selection_navigates_and_keeps_input (state : RState) (changes : RChanges)
    (r : SearchResult)
    (h1 : changes.type = ChangeType.clickItem ∨ changes.type = ChangeType.keyDownEnter)
    (h2 : changes.fields.selectedItem = some (some (DownshiftItem.result r))) :
    stateReducer true state changes =
      .ok ({ changes.fields with inputValue := some state.inputValue, isOpen := some false },
        { navCall := some (r.item.id, r.item.refId), blurred := true,
          showAllSet := some false }) := by
  rcases h1 with h1 | h1 <;>
    simp [stateReducer, h1, h2, selectStory, apiSelectStory]

/-- C6 (witness): the spec's example — Enter on the result for
`{id: 'btn--primary', refId: 'r1'}` with input `"butt"`. -/
theorem selection_navigates_and_keeps_input_witness :
    stateReducer true ⟨"butt", true, none⟩
        ⟨ChangeType.keyDownEnter,
          { selectedItem := some (some (DownshiftItem.result
              ⟨⟨"btn--primary", "Primary", "p", "story", some "btn", "r1", none⟩, [], 0⟩)) }⟩ =
      .ok ({ inputValue := some "butt", isOpen := some false,
              selectedItem := some (some (DownshiftItem.result
                ⟨⟨"btn--primary", "Primary", "p", "story", some "btn", "r1", none⟩, [], 0⟩)) },
        { navCall := some ("btn--primary", "r1"), blurred := true,
          showAllSet := some false }) :=
  selection_navigates_and_keeps_input ⟨"butt", true, none⟩
    ⟨ChangeType.keyDownEnter,
      { selectedItem := some (some (DownshiftItem.result
          ⟨⟨"btn--primary", "Primary", "p", "story", some "btn", "r1", none⟩, [], 0⟩)) }⟩
    ⟨⟨"btn--primary", "Primary", "p", "story", some "btn", "r1", none⟩, [], 0⟩
    (Or.inr rfl) rfl

/-- C8: item click or Enter with an expand marker selected invokes the
marker's reveal action (`showAllComponents(true)`) and vetoes the
transition: the reducer returns the empty change object, which leaves every
container-state field unchanged. -/
theorem expand_marker_vetoes_transition (api : Bool) (state : RState) (changes : RChanges)
    (t m : Nat)
    (h1 : changes.type = ChangeType.clickItem ∨ changes.type = ChangeType.keyDownEnter)
    (h2 : changes.fields.selectedItem = some (some (DownshiftItem.expand t m))) :
    stateReducer api state changes = .ok ({}, { showAllSet := some true }) ∧
    applyChanges state {} = state := by
  refine ⟨?_, rfl⟩
  rcases h1 with h1 | h1 <;> simp [stateReducer, h1, h2]

/-- C8 (witness): clicking the "show 70 more" marker. -/
theorem expand_marker_vetoes_transition_witness :
    stateReducer true ⟨"butt", true, none⟩
        ⟨ChangeType.clickItem,
          { selectedItem := some (some (DownshiftItem.expand 120 70)) }⟩ =
      .ok ({}, { showAllSet := some true }) ∧
    applyChanges ⟨"butt", true, none⟩ {} = ⟨"butt", true, none⟩ :=
  expand_marker_vetoes_transition true ⟨"butt", true, none⟩
    ⟨ChangeType.clickItem, { selectedItem := some (some (DownshiftItem.expand 120 70)) }⟩
    120 70 (Or.inl rfl) rfl

/-- C9: with the host API absent, selecting a search result does not fail:
the reducer still succeeds (`.ok`), the navigation call is skipped
(`navCall = none`), and the remaining behaviour (blur, "show all" reset,
kept input text) is unchanged. -/
theorem selection_noop_without_api (state : RState) (changes : RChanges)
    (r : SearchResult)
    (h1 : changes.type = ChangeType.clickItem ∨ changes.type = ChangeType.keyDownEnter)
    (h2 : changes.fields.selectedItem = some (some (DownshiftItem.result r))) :
    stateReducer false state changes =
      .ok ({ changes.fields with inputValue := some state.inputValue, isOpen := some false },
        { navCall := none, blurred := true, showAllSet := some false }) := by
  rcases h1 with h1 | h1 <;>
    simp [stateReducer, h1, h2, selectStory]

/-- C9 (witness): Enter on a result while the API is absent. -/
theorem selection_noop_without_api_witness :
    stateReducer false ⟨"card", false, none⟩
        ⟨ChangeType.keyDownEnter,
          { selectedItem := some (some (DownshiftItem.result
              ⟨⟨"card--basic", "Basic", "p", "story", some "card", "r2", none⟩, [], 0⟩)) }⟩ =
      .ok ({ inputValue := some "card", isOpen := some false,
              selectedItem := some (some (DownshiftItem.result
                ⟨⟨"card--basic", "Basic", "p", "story", some "card", "r2", none⟩, [], 0⟩)) },
        { navCall := none, blurred := true, showAllSet := some false }) :=
  selection_noop_without_api ⟨"card", false, none⟩
    ⟨ChangeType.keyDownEnter,
      { selectedItem := some (some (DownshiftItem.result
          ⟨⟨"card--basic", "Basic", "p", "story", some "card", "r2", none⟩, [], 0⟩)) }⟩
    ⟨⟨"card--basic", "Basic", "p", "story", some "card", "r2", none⟩, [], 0⟩
    (Or.inr rfl) rfl

end Storybook
